import Mathlib

/-!
Verification of the task synchronization and client-side state layer of the
wecinema-reporting dashboard.

The embedding translates, from the source:
* the Firestore client module (`src/unnamed/part_000`): the task data model,
  the module-level task cache (`tasksCache` / `lastCacheTime`), the timestamp
  normalizer `convertTimestamp`, the operations `initializeTasks`,
  `fetchTasks`, `subscribeToTasks`, `updateTaskStatus`, `checkTasksExist`;
* the React hooks (`src/src/components/useDashboard.ts`): `calculateStats`,
  the tester-authentication state machine (`useTesterAuth.login`), the
  realtime-tasks controller wiring (`useRealtimeTasks`), and the task filter
  (`useTaskFilter`).

The remote document store (Firestore) is an external service.  Its reads and
writes are modelled by explicit parameters carrying their outcome: a read is
an `Except StoreErr` value, a write outcome is computed from the store
contents passed in (`updateDoc` fails on an absent document).  Asynchronous
calls are sequenced explicitly; `Date.now()` / `Timestamp.now()` instants are
explicit `Int` millisecond parameters.
-/

namespace WeCinema

/-- Firestore SDK error classes relevant to this module (error codes of the
underlying store). -/
inductive StoreErr where
  | notFound
  | unavailable
  | permissionDenied
deriving DecidableEq

/-- A thrown JavaScript value as this module produces them: a runtime
`TypeError`, an error surfaced from the Firestore SDK, or a fresh
`new Error(msg)`. -/
inductive JsError where
  | typeError
  | store (e : StoreErr)
  | error (msg : String)
deriving DecidableEq

/-- `type TaskStatus = 'completed' | 'in-progress' | 'pending' | 'blocked'`. -/
inductive TaskStatus where
  | completed
  | inProgress
  | pending
  | blocked
deriving DecidableEq

/-- `type TaskPriority = 'low' | 'medium' | 'high' | 'critical'`. -/
inductive TaskPriority where
  | low
  | medium
  | high
  | critical
deriving DecidableEq

/-- `type TaskCategory` — the nine domain tags. -/
inductive TaskCategory where
  | auth
  | media
  | engagement
  | search
  | ui
  | personalization
  | subscription
  | marketplace
  | advanced
deriving DecidableEq

/-- A well-formed time value as stored in a task record: a Firestore
`Timestamp` or a native `Date`, each carrying its instant in milliseconds
(the field type `lastUpdated: Timestamp | Date`). -/
inductive TimeVal where
  | ts (ms : Int)
  | date (ms : Int)
deriving DecidableEq

/-- The fields of `interface Task` except `id` (TypeScript
`Omit<Task, 'id'>`, the element type of the seed list). -/
structure TaskData where
  day : Int
  title : String
  module : String
  status : TaskStatus
  priority : TaskPriority
  category : TaskCategory
  description : String
  findings : Option String := none
  assignedTo : Option String := none
  estimatedHours : Nat
  actualHours : Option Nat := none
  lastUpdated : TimeVal
  tags : List String
deriving DecidableEq

/-- `interface Task` of the Firestore module. -/
structure Task extends TaskData where
  id : String
deriving DecidableEq

/-- A document of the `wecinema_tasks` collection: the task fields plus the
`createdAt` and `order` fields that `initializeTasks` writes (they are spread
along when documents are fetched, and invisible to the `Task` interface). -/
structure StoreDoc extends Task where
  createdAt : Option TimeVal := none
  order : Option Nat := none
deriving DecidableEq

/-- The module-level cache: `let tasksCache: Task[] | null = null` and
`let lastCacheTime = 0`. -/
structure CacheState where
  tasksCache : Option (List Task) := none
  lastCacheTime : Int := 0
deriving DecidableEq

/-- `const CACHE_DURATION = 30000`. -/
def CACHE_DURATION : Int := 30000

/-! ## Timestamp normalizer -/

/-- The input universe of `convertTimestamp (timestamp: Timestamp | Date |
unknown)`, as the tagged union of the shapes the code distinguishes:
a Firestore `Timestamp` instance, a native `Date`, a truthy non-instance
object whose `toDate` property is a function returning a date, a truthy
object whose `toDate` property exists but is not callable, a truthy object
without a `toDate` property, `null`/`undefined`, and any non-object
primitive. -/
inductive TSValue where
  | timestamp (ms : Int)
  | date (ms : Int)
  | objWithToDateFn (ms : Int)
  | objWithToDateNonFn
  | objOther
  | nullOrUndefined
  | otherPrimitive
deriving DecidableEq

/-- `convertTimestamp`: `instanceof Timestamp` → `.toDate()`; `instanceof
Date` → itself; a truthy object with `'toDate' in timestamp` → the call
`(timestamp as Timestamp).toDate()`, which succeeds when `toDate` is a
function and throws a `TypeError` when the property is present but not
callable; everything else → `new Date()` (the current instant `now`).
The result is the produced date's instant in milliseconds. -/
def convertTimestamp (v : TSValue) (now : Int) : Except JsError Int :=
  match v with
  | .timestamp ms => .ok ms
  | .date ms => .ok ms
  | .objWithToDateFn ms => .ok ms
  | .objWithToDateNonFn => .error .typeError
  | .objOther => .ok now
  | .nullOrUndefined => .ok now
  | .otherPrimitive => .ok now

/-- `convertTimestamp` restricted to the well-formed `Timestamp | Date`
values that task documents actually hold (its first two branches). -/
def convertTimeVal : TimeVal → Int
  | .ts ms => ms
  | .date ms => ms

/-- The snapshot mapping used by `fetchTasks` and `subscribeToTasks`:
`{ id: doc.id, ...data, lastUpdated: convertTimestamp(data.lastUpdated) }` —
the document's fields with `lastUpdated` normalized to a `Date`. -/
def docToTask (d : StoreDoc) : Task :=
  { d.toTask with lastUpdated := .date (convertTimeVal d.lastUpdated) }

/-! ## fetchTasks -/

/-- The message of the error `fetchTasks` throws when the live fetch fails
and no cache exists. -/
def fetchErrMsg : String := "Failed to fetch tasks. Please check your connection."

/-- `limitCount ? tasks.slice(0, limitCount) : tasks`. -/
def sliceTo (limitCount : Option Nat) (l : List Task) : List Task :=
  match limitCount with
  | some n => l.take n
  | none => l

/-- `fetchTasks(options?)`.  `now` is `Date.now()`; `remote` is the outcome
of `getDocs` on the day-ordered query (with the `limit` already applied by
the query itself).  Returns the fetched or cached list together with the
module cache as left by the call.  Branches, in source order: the fresh-cache
fast path (`useCache && tasksCache && (Date.now() - lastCacheTime) <
CACHE_DURATION`), then the remote fetch which maps the snapshot docs and
replaces the cache, and on a remote failure the stale-cache fallback
(`if (tasksCache) return tasksCache`) or the thrown error. -/
def fetchTasks (cache : CacheState) (now : Int) (useCache : Bool)
    (limitCount : Option Nat) (remote : Except StoreErr (List StoreDoc)) :
    Except JsError (List Task) × CacheState :=
  if useCache = true ∧ cache.tasksCache.isSome = true ∧
      now - cache.lastCacheTime < CACHE_DURATION then
    (.ok (sliceTo limitCount (cache.tasksCache.getD [])), cache)
  else
    match remote with
    | .ok docs =>
        let tasks := docs.map docToTask
        (.ok tasks, { tasksCache := some tasks, lastCacheTime := now })
    | .error _ =>
        match cache.tasksCache with
        | some l => (.ok l, cache)
        | none => (.error (.error fetchErrMsg), cache)

/-! ## updateTaskStatus -/

/-- The options bag of `updateTaskStatus`. -/
structure StatusUpdateOptions where
  actualHours : Option Nat := none
  findings : Option String := none
  merge : Bool := true
deriving DecidableEq

/-- The message of the generic error `updateTaskStatus` throws on any
failure. -/
def updateFailMsg : String := "Failed to update task status. Please try again."

/-- The outcome of `updateDoc(taskRef, ...)`: Firestore's `updateDoc` fails
with a not-found error when the document is absent. -/
def updateDocResult (store : List StoreDoc) (taskId : String) :
    Except StoreErr Unit :=
  if store.any (fun d => d.id = taskId) then .ok () else .error .notFound

/-- The spread `{ ...task, ...updateData }` applied by the optimistic cache
patch and by the remote write: `status` and `lastUpdated` always, and
`actualHours` / `findings` only when the options carried them
(`if (actualHours !== undefined) updateData.actualHours = actualHours`,
likewise for `findings`). -/
def applyStatusUpdate (newStatus : TaskStatus) (o : StatusUpdateOptions)
    (lu : TimeVal) (t : TaskData) : TaskData :=
  { t with
    status := newStatus
    lastUpdated := lu
    actualHours := match o.actualHours with
      | some a => some a
      | none => t.actualHours
    findings := match o.findings with
      | some f => some f
      | none => t.findings }

/-- `findIndex`-then-replace on the cached list: the first entry whose id
matches is replaced by `f` of it; when no entry matches (`taskIndex === -1`)
the list is unchanged. -/
def patchFirst (taskId : String) (f : Task → Task) : List Task → List Task
  | [] => []
  | t :: ts => if t.id = taskId then f t :: ts else t :: patchFirst taskId f ts

/-- `updateTaskStatus(taskId, newStatus, options?)`.  `store` is the remote
collection contents at call time, used to decide the write's outcome (the
remote store itself is an external service; only the module cache is
state owned by this code).  `nowTs` is the `Timestamp.now()` stamped into
`updateData`; `nowDate` is the `new Date()` of the optimistic cache patch.
With `merge` (the default) the write is `updateDoc`, which fails on an
absent document; otherwise it is `setDoc(..., { merge: true })`, which
always succeeds.  On success the cache entry with the id is patched in
place (`lastCacheTime` untouched); on failure the caught error is replaced
by `new Error('Failed to update task status. Please try again.')` and the
cache is untouched. -/
def updateTaskStatus (store : List StoreDoc) (cache : CacheState)
    (taskId : String) (newStatus : TaskStatus) (o : StatusUpdateOptions)
    (nowTs nowDate : Int) : Except JsError Unit × CacheState :=
  let writeResult : Except StoreErr Unit :=
    if o.merge then updateDocResult store taskId else .ok ()
  match writeResult with
  | .error _ => (.error (.error updateFailMsg), cache)
  | .ok _ =>
      match cache.tasksCache with
      | none => (.ok (), cache)
      | some l =>
          (.ok (), { cache with tasksCache := some (patchFirst taskId
            (fun t => { t with
              toTaskData := applyStatusUpdate newStatus o (.date nowDate) t.toTaskData }) l) })

/-- The message of the error the hook-level `updateStatus` throws. -/
def ctrlUpdateFailMsg : String := "Failed to update status. Please try again."

/-- `useRealtimeTasks`'s `updateStatus(taskId, newStatus)`: calls
`updateTaskStatus` with no options and replaces any failure by
`new Error('Failed to update status. Please try again.')`. -/
def ctrlUpdateStatus (store : List StoreDoc) (cache : CacheState)
    (taskId : String) (newStatus : TaskStatus) (nowTs nowDate : Int) :
    Except JsError Unit × CacheState :=
  match updateTaskStatus store cache taskId newStatus {} nowTs nowDate with
  | (.ok _, c) => (.ok (), c)
  | (.error _, c) => (.error (.error ctrlUpdateFailMsg), c)

/-! ## checkTasksExist and initializeTasks -/

/-- The outcome of `getDocs(query(collection, limit(1)))`: the probe either
fails with a store error or delivers at most one document of the
collection. -/
def probeResult (store : List StoreDoc) (probeFails : Bool) :
    Except StoreErr (List StoreDoc) :=
  if probeFails then .error .unavailable else .ok (store.take 1)

/-- `checkTasksExist()`: `!snapshot.empty` on a successful probe; any store
error is caught, logged, and reported as `false`. -/
def checkTasksExist (probe : Except StoreErr (List StoreDoc)) : Bool :=
  match probe with
  | .ok docs => !docs.isEmpty
  | .error _ => false

/-- `String(n).padStart(3, '0')`. -/
def padStart3 (n : Nat) : String :=
  if n < 10 then "00" ++ toString n
  else if n < 100 then "0" ++ toString n
  else toString n

/-- The `initialTasks: Omit<Task, 'id'>[]` literal of `initializeTasks`.
`d` is the instant of the `new Date()` calls evaluated while the array is
built (every record's `lastUpdated` is overwritten with `Timestamp.now()`
before being written). -/
def initialTasks (d : Int) : List TaskData :=
  [{ day := 1, title := "Authentication & Access Control", module := "Auth System",
     status := .completed, priority := .high, category := .auth,
     description := "Email/Google OAuth, Session Handling, Role Protection.",
     findings := some "System stable. No session leakage detected. Role-based access functioning correctly.",
     assignedTo := some "Hamza Manzoor", estimatedHours := 8, actualHours := some 7,
     lastUpdated := .date d, tags := ["security", "oauth", "testing"] },
   { day := 2, title := "Video & Script Upload System", module := "Storage",
     status := .completed, priority := .high, category := .media,
     description := "Multi-format upload, metadata tagging, interruption handling.",
     findings := some "Upload system stable. No data corruption. Metadata stored accurately.",
     assignedTo := some "Hamza Manzoor", estimatedHours := 10, actualHours := some 12,
     lastUpdated := .date d, tags := ["storage", "upload", "performance"] },
   { day := 3, title := "Engagement & Interaction", module := "Social",
     status := .completed, priority := .medium, category := .engagement,
     description := "Likes, Comments, Bookmarks, Real-time UI.",
     findings := some "Engagement layer synchronized. Real-time updates working.",
     assignedTo := some "Hamza Manzoor", estimatedHours := 6, actualHours := some 6,
     lastUpdated := .date d, tags := ["real-time", "social", "ux"] },
   { day := 4, title := "Search & Discovery Engine", module := "Search",
     status := .completed, priority := .high, category := .search,
     description := "Voice search, Filters, Graph data aggregation.",
     findings := some "Search queries optimized. Filter logic verified. Graph data accurate.",
     assignedTo := some "Hamza Manzoor", estimatedHours := 12, actualHours := some 14,
     lastUpdated := .date d, tags := ["search", "performance", "algorithm"] },
   { day := 5, title := "UI/UX & Static Pages", module := "Frontend",
     status := .completed, priority := .medium, category := .ui,
     description := "Dark Mode, Responsive Design, Legal Pages.",
     findings := some "UI responsive across devices. Dark mode consistent.",
     assignedTo := some "Hamza Manzoor", estimatedHours := 8, actualHours := some 7,
     lastUpdated := .date d, tags := ["ui", "responsive", "design-system"] },
   { day := 6, title := "Personalization & User Data", module := "Data",
     status := .completed, priority := .medium, category := .personalization,
     description := "Watch history, Liked videos, Data isolation.",
     findings := some "User data properly isolated. Personal dashboard stable.",
     assignedTo := some "Hamza Manzoor", estimatedHours := 6, actualHours := some 5,
     lastUpdated := .date d, tags := ["privacy", "data", "isolation"] },
   { day := 7, title := "Hypemode Role & Access", module := "Subscription",
     status := .inProgress, priority := .critical, category := .subscription,
     description := "Role assignment (User/Studio), Feature access control.",
     findings := some "Testing role switching and premium badge verification...",
     assignedTo := some "Hamza Manzoor", estimatedHours := 10, actualHours := some 4,
     lastUpdated := .date d, tags := ["subscription", "roles", "access-control"] },
   { day := 8, title := "PayPal Integration", module := "Payments",
     status := .pending, priority := .critical, category := .subscription,
     description := "Subscription flow, Webhooks, Expiry detection.",
     assignedTo := some "Hamza Manzoor", estimatedHours := 12,
     lastUpdated := .date d, tags := ["payment", "paypal", "webhooks"] },
   { day := 9, title := "Subscription Edge Cases", module := "Payments",
     status := .pending, priority := .high, category := .subscription,
     description := "Cancel/Renew logic, Duplicate payment prevention.",
     assignedTo := some "Hamza Manzoor", estimatedHours := 8,
     lastUpdated := .date d, tags := ["edge-cases", "payment", "renewal"] },
   { day := 10, title := "Premium Feature Enforcement", module := "Access",
     status := .pending, priority := .high, category := .subscription,
     description := "Seller dashboard restriction, Downgrade behavior.",
     assignedTo := some "Hamza Manzoor", estimatedHours := 6,
     lastUpdated := .date d, tags := ["enforcement", "premium", "downgrade"] },
   { day := 11, title := "Seller Dashboard Functional", module := "Marketplace",
     status := .pending, priority := .high, category := .marketplace,
     description := "CRUD listings, Visibility settings.",
     assignedTo := some "Hamza Manzoor", estimatedHours := 14,
     lastUpdated := .date d, tags := ["seller", "crud", "dashboard"] },
   { day := 12, title := "Stripe Connect Setup", module := "Finance",
     status := .pending, priority := .critical, category := .marketplace,
     description := "Account connection, KYC, Webhook mapping.",
     assignedTo := some "Hamza Manzoor", estimatedHours := 16,
     lastUpdated := .date d, tags := ["stripe", "kyc", "onboarding"] },
   { day := 13, title := "Earnings & Withdrawal", module := "Finance",
     status := .pending, priority := .high, category := .marketplace,
     description := "Commission logic, Withdrawal requests.",
     assignedTo := some "Hamza Manzoor", estimatedHours := 10,
     lastUpdated := .date d, tags := ["earnings", "withdrawal", "commission"] },
   { day := 14, title := "Offer & Order Management", module := "Marketplace",
     status := .pending, priority := .medium, category := .marketplace,
     description := "Accept/Reject offers, Order creation triggers.",
     assignedTo := some "Hamza Manzoor", estimatedHours := 12,
     lastUpdated := .date d, tags := ["offers", "orders", "workflow"] },
   { day := 15, title := "Buyer Dashboard Testing", module := "Orders",
     status := .pending, priority := .medium, category := .marketplace,
     description := "Order states, Visibility, History.",
     assignedTo := some "Hamza Manzoor", estimatedHours := 8,
     lastUpdated := .date d, tags := ["buyer", "orders", "history"] },
   { day := 16, title := "Order Lifecycle & Stripe", module := "Orders",
     status := .pending, priority := .high, category := .marketplace,
     description := "Payment verification, State transitions.",
     assignedTo := some "Hamza Manzoor", estimatedHours := 14,
     lastUpdated := .date d, tags := ["lifecycle", "stripe", "verification"] },
   { day := 17, title := "Buyer-Seller Messaging", module := "Chat",
     status := .pending, priority := .medium, category := .marketplace,
     description := "Real-time chat, Order-linked conversations.",
     assignedTo := some "Hamza Manzoor", estimatedHours := 16,
     lastUpdated := .date d, tags := ["chat", "real-time", "messaging"] },
   { day := 18, title := "Video Editor & Processing", module := "Advanced",
     status := .pending, priority := .low, category := .advanced,
     description := "Editing workflow, Export validation, Memory optimization.",
     assignedTo := some "Hamza Manzoor", estimatedHours := 20,
     lastUpdated := .date d, tags := ["video-editor", "processing", "memory"] },
   { day := 19, title := "AI Chatbot & Support", module := "Advanced",
     status := .pending, priority := .medium, category := .advanced,
     description := "AI accuracy, Escalation flows.",
     assignedTo := some "Hamza Manzoor", estimatedHours := 18,
     lastUpdated := .date d, tags := ["ai", "chatbot", "support"] },
   { day := 20, title := "Final Audit & Launch Readiness", module := "Audit",
     status := .pending, priority := .critical, category := .advanced,
     description := "Full regression testing, Performance audit.",
     assignedTo := some "Hamza Manzoor", estimatedHours := 24,
     lastUpdated := .date d, tags := ["audit", "regression", "launch"] }]

/-- The batch contents built by `initializeTasks`: for each seed record, a
document under id `task_${String(index + 1).padStart(3, '0')}` with
`{ ...task, lastUpdated: now, createdAt: now, order: index + 1 }`, where
`now = Timestamp.now()`. -/
def seedDocs (now : Int) : List StoreDoc :=
  (initialTasks now).mapIdx (fun i t =>
    { toTask := { toTaskData := { t with lastUpdated := .ts now },
                  id := "task_" ++ padStart3 (i + 1) },
      createdAt := some (.ts now), order := some (i + 1) })

/-- `batch.set(docRef, data)`: a whole-document write, replacing the
document with that id or creating it. -/
def batchSetOne (store : List StoreDoc) (d : StoreDoc) : List StoreDoc :=
  if store.any (fun x => x.id = d.id) then
    store.map (fun x => if x.id = d.id then d else x)
  else store ++ [d]

/-- `batch.commit()`: the queued whole-document writes applied atomically,
in order. -/
def batchSet (store : List StoreDoc) (docs : List StoreDoc) : List StoreDoc :=
  docs.foldl batchSetOne store

/-- The message of the error `initializeTasks` throws on failure. -/
def initFailMsg : String := "Failed to initialize tasks. Please try again."

/-- `initializeTasks(force = false)`.  `store` is the remote collection at
call time, returned updated (the batch write is this operation's subject);
`probeFails` makes the existence probe's `getDocs` fail, `commitFails` makes
`batch.commit()` fail, and `now` is `Timestamp.now()`.  If records exist and
`force` is not set, nothing is written.  Otherwise the fixed seed set is
committed as one batch and the module cache is invalidated
(`tasksCache = null`; `lastCacheTime` is not touched).  Any error is caught
and re-thrown as `new Error('Failed to initialize tasks. Please try
again.')`, and then neither the store nor the cache was changed. -/
def initializeTasks (store : List StoreDoc) (cache : CacheState)
    (force : Bool) (probeFails commitFails : Bool) (now : Int) :
    Except JsError Unit × List StoreDoc × CacheState :=
  let ex := checkTasksExist (probeResult store probeFails)
  if ex && !force then (.ok (), store, cache)
  else if commitFails then (.error (.error initFailMsg), store, cache)
  else (.ok (), batchSet store (seedDocs now),
        { cache with tasksCache := none })

/-! ## subscribeToTasks and the useRealtimeTasks controller -/

/-- The state of `useRealtimeTasks`: `tasks`, `loading`, `lastSync`,
`error`. -/
structure ControllerState where
  tasks : List Task := []
  loading : Bool := true
  lastSync : Option Int := none
  error : Option String := none
deriving DecidableEq

/-- The controller plus the module cache plus the liveness of the one
subscription opened by `useRealtimeTasks` (`unsubscribeRef`). -/
structure SubSystem where
  cache : CacheState := {}
  ctrl : ControllerState := {}
  active : Bool := true
deriving DecidableEq

/-- An occurrence on the live subscription: a server push delivering the
full ordered snapshot, an error delivered on the subscription's error
channel, or the cleanup calling the unsubscribe handle. -/
inductive SubEvent where
  | push (docs : List StoreDoc)
  | errEvent (e : StoreErr)
  | cancel
deriving DecidableEq

/-- One subscription occurrence, as wired by `subscribeToTasks` and the
`useRealtimeTasks` call site.  After the unsubscribe handle has run, the
listener is detached and nothing is delivered.  A push maps the snapshot
docs, replaces the module cache (`tasksCache = tasks; lastCacheTime =
Date.now()`), and invokes the data callback, which is
`setTasks(updatedTasks); setLastSync(new Date()); setLoading(false)`
(`error` is not touched by it).  A subscription error is logged and handed
to the optional `onError` callback — `useRealtimeTasks` passes none, so the
controller state is unchanged — and the error handler does not call the
unsubscribe handle, so the subscription stays live.  `cancel` runs the
cleanup's unsubscribe. -/
def subStep (s : SubSystem) (now : Int) (ev : SubEvent) : SubSystem :=
  if s.active = false then s
  else
    match ev with
    | .push docs =>
        let tasks := docs.map docToTask
        { cache := { tasksCache := some tasks, lastCacheTime := now },
          ctrl := { s.ctrl with tasks := tasks, lastSync := some now, loading := false },
          active := s.active }
    | .errEvent _ => s
    | .cancel => { s with active := false }

/-- A whole subscription lifetime: the occurrences in delivery order, each
with its instant. -/
def subRun (s : SubSystem) : List (Int × SubEvent) → SubSystem
  | [] => s
  | (t, ev) :: evs => subRun (subStep s t ev) evs

/-! ## Tester authentication (useTesterAuth) -/

/-- `const TESTER_PASSWORD = 'wecinema4464'`. -/
def TESTER_PASSWORD : String := "wecinema4464"

/-- `const MAX_ATTEMPTS = 3`. -/
def MAX_ATTEMPTS : Nat := 3

/-- `const LOCKOUT_DURATION = 5 * 60 * 1000`. -/
def LOCKOUT_DURATION : Int := 5 * 60 * 1000

/-- The state of `useTesterAuth` plus the two storage scopes it writes: the
`sessionStorage` authenticated flag and the `localStorage` lockout-expiry
instant. -/
structure AuthState where
  isAuthenticated : Bool := false
  password : String := ""
  error : String := ""
  attempts : Nat := 0
  showLoginModal : Bool := false
  isLocked : Bool := false
  sessionAuthStored : Bool := false
  lockoutEndStored : Option Int := none
deriving DecidableEq

/-- The message set while the gate is locked. -/
def lockedMsg : String := "Account temporarily locked. Please try again later."

/-- The message set when the third failure locks the gate. -/
def lockoutMsg : String := "Too many failed attempts. Account locked for 5 minutes."

/-- The remaining-attempts message of a non-locking failure. -/
def invalidMsg (remaining : Nat) : String :=
  "Invalid password. " ++ toString remaining ++ " attempt"
    ++ (if remaining != 1 then "s" else "") ++ " remaining."

/-- `login(inputPassword)` of `useTesterAuth`, returning the call's boolean
result and the state after it.  When locked it fails at once without
consuming an attempt; a wrong password increments the counter and either
locks (at `MAX_ATTEMPTS`, storing the lockout expiry `now +
LOCKOUT_DURATION` in durable storage) or reports the remaining attempts;
the correct password authenticates, resets the counter, closes the modal,
stores the session flag and clears the stored lockout.  (The 5-minute timer
that later clears `isLocked` is outside this step function: every claim
about the lockout is within the window.) -/
def login (s : AuthState) (now : Int) (input : String) : Bool × AuthState :=
  if s.isLocked then (false, { s with error := lockedMsg })
  else if input ≠ TESTER_PASSWORD then
    let newAttempts := s.attempts + 1
    if newAttempts ≥ MAX_ATTEMPTS then
      (false, { s with
        error := lockoutMsg
        isLocked := true
        lockoutEndStored := some (now + LOCKOUT_DURATION)
        attempts := newAttempts })
    else
      (false, { s with
        error := invalidMsg (MAX_ATTEMPTS - newAttempts)
        attempts := newAttempts })
  else
    (true, { s with
      isAuthenticated := true
      showLoginModal := false
      error := ""
      attempts := 0
      sessionAuthStored := true
      lockoutEndStored := none })

/-! ## calculateStats -/

/-- `Math.round` on an exact rational: round half away from zero toward
positive infinity, as for the non-negative ratios this code rounds. -/
def jsRound (q : Rat) : Int := (q + 1 / 2).floor

/-- `t.actualHours || t.estimatedHours || 0`: JavaScript `||` takes the
first truthy operand, and `0` and `undefined` are falsy. -/
def jsHoursOr (actual : Option Nat) (estimated : Nat) : Nat :=
  match actual with
  | some a => if a = 0 then (if estimated = 0 then 0 else estimated) else a
  | none => if estimated = 0 then 0 else estimated

/-- `interface DashboardStats`. -/
structure DashboardStats where
  totalTasks : Nat
  completedTasks : Nat
  inProgressTasks : Nat
  blockedTasks : Nat
  completionRate : Int
  totalHours : Nat
  velocity : Rat
deriving DecidableEq

/-- `calculateStats(tasks)`: the status counts, the total hours
(`reduce` with `actualHours || estimatedHours || 0`), the completion rate
(`Math.round((completed / tasks.length) * 100)`, guarded to `0` on an empty
list), and `velocity = completed / 6`. -/
def calculateStats (tasks : List Task) : DashboardStats :=
  let completed := (tasks.filter (fun t => t.status = .completed)).length
  let inProgress := (tasks.filter (fun t => t.status = .inProgress)).length
  let blocked := (tasks.filter (fun t => t.status = .blocked)).length
  { totalTasks := tasks.length
    completedTasks := completed
    inProgressTasks := inProgress
    blockedTasks := blocked
    completionRate :=
      if tasks.length > 0 then jsRound ((completed : Rat) / tasks.length * 100) else 0
    totalHours := tasks.foldl (fun acc t => acc + jsHoursOr t.actualHours t.estimatedHours) 0
    velocity := (completed : Rat) / 6 }

/-! ## useTaskFilter -/

/-- The status filter: `Task['status'] | 'all'`. -/
inductive StatusFilter where
  | all
  | only (s : TaskStatus)
deriving DecidableEq

/-- An ASCII model of `String.prototype.toLowerCase`. -/
def jsToLower (s : String) : String := String.map Char.toLower s

/-- `String.prototype.includes(pat)`: `pat` occurs contiguously in `s` at
some offset. -/
def strIncludes (s pat : String) : Bool :=
  (List.range (s.data.length + 1)).any
    (fun i => decide (List.take pat.data.length (List.drop i s.data) = pat.data))

/-- The debounced query: `setDebouncedQuery(searchQuery.toLowerCase().trim())`
after 300 ms of quiescence. -/
def debouncedOf (searchQuery : String) : String := (jsToLower searchQuery).trim

/-- The predicate of `useTaskFilter`'s `tasks.filter`:
`matchesStatus = filterStatus === 'all' || task.status === filterStatus`;
with an empty (falsy) debounced query the status alone decides, otherwise
the lowercased title, module or some tag must contain the query. -/
def taskMatchesFilter (fs : StatusFilter) (q : String) (t : Task) : Bool :=
  let matchesStatus : Bool :=
    match fs with
    | .all => true
    | .only s => decide (t.status = s)
  if q = "" then matchesStatus
  else
    matchesStatus &&
      (strIncludes (jsToLower t.title) q || strIncludes (jsToLower t.module) q ||
        t.tags.any (fun tg => strIncludes (jsToLower tg) q))

/-- `filteredTasks` of `useTaskFilter`, as a function of the task list, the
status filter and the debounced query: the fast path returns the input list
unchanged when no filter is active, otherwise `tasks.filter`. -/
def filteredTasks (tasks : List Task) (fs : StatusFilter) (q : String) :
    List Task :=
  if q = "" ∧ fs = .all then tasks
  else tasks.filter (taskMatchesFilter fs q)

/-! ## Sample data for concrete witnesses -/

/-- A small concrete task used as a witness input. -/
def sampleTask : Task :=
  { day := 1, title := "Authentication & Access Control", module := "Auth System",
    status := .pending, priority := .high, category := .auth,
    description := "Email/Google OAuth, Session Handling, Role Protection.",
    estimatedHours := 8, lastUpdated := .date 0,
    tags := ["security", "oauth", "testing"], id := "task_001" }

/-- The store document holding `sampleTask`. -/
def sampleDoc : StoreDoc := { toTask := sampleTask }

/-- A concrete cache holding exactly `sampleTask`, fetched at instant 0. -/
def sampleCache : CacheState := { tasksCache := some [sampleTask], lastCacheTime := 0 }

/-- The authentication state after three `login` calls from the initial
state. -/
def afterThreeLogins (w1 w2 w3 : String) (n1 n2 n3 : Int) : AuthState :=
  (login (login (login {} n1 w1).2 n2 w2).2 n3 w3).2

/-!
# Theorems

Helper lemmas first, then one theorem per claim (with its witness or
counterexample where required).
-/

/-- On the store's well-formed time values the normalizer agrees with its
restriction: `convertTimestamp` never throws there. -/
theorem convertTimestamp_timeVal (tv : TimeVal) (now : Int) :
    convertTimestamp (match tv with
      | .ts ms => .timestamp ms
      | .date ms => .date ms) now = .ok (convertTimeVal tv) := by
  cases tv <;> rfl

/-- `patchFirst` preserves the list's length. -/
theorem patchFirst_length (taskId : String) (f : Task → Task) (l : List Task) :
    (patchFirst taskId f l).length = l.length := by
  induction l with
  | nil => rfl
  | cons t ts ih =>
      by_cases h : t.id = taskId <;> simp [patchFirst, h, ih]

/-- An entry whose id differs from the patched one is untouched, position
included. -/
theorem patchFirst_getElem_ne (taskId : String) (f : Task → Task)
    (l : List Task) (j : Nat) (t : Task) (hj : l[j]? = some t)
    (ht : t.id ≠ taskId) : (patchFirst taskId f l)[j]? = some t := by
  induction l generalizing j with
  | nil => simp at hj
  | cons t0 ts ih =>
      cases j with
      | zero =>
          simp at hj
          subst hj
          simp [patchFirst, if_neg ht]
      | succ j =>
          simp at hj
          by_cases h0 : t0.id = taskId
          · simp [patchFirst, h0, hj]
          · simpa [patchFirst, h0] using ih j hj

/-- When ids are pairwise distinct, the entry holding the patched id is
replaced by `f` of it, at its original position. -/
theorem patchFirst_getElem_id (taskId : String) (f : Task → Task)
    (l : List Task) (j : Nat) (t : Task)
    (hnd : (l.map Task.id).Nodup) (hj : l[j]? = some t)
    (ht : t.id = taskId) : (patchFirst taskId f l)[j]? = some (f t) := by
  induction l generalizing j with
  | nil => simp at hj
  | cons t0 ts ih =>
      simp only [List.map_cons, List.nodup_cons] at hnd
      cases j with
      | zero =>
          simp at hj
          subst hj
          simp [patchFirst, ht]
      | succ j =>
          simp at hj
          by_cases h0 : t0.id = taskId
          · exfalso
            have hmem : t ∈ ts := List.getElem?_mem hj
            have hid : t0.id ∈ List.map Task.id ts := by
              rw [h0, ← ht]
              exact List.mem_map_of_mem Task.id hmem
            exact hnd.1 hid
          · simpa [patchFirst, h0] using ih j hnd.2 hj

/-! ## C6 — the timestamp normalizer -/

/-- Claim C6, counterexample: the claim says `convertTimestamp` returns a
date for every input and never throws, but on a truthy object whose
`toDate` property exists without being callable (for example
`{ toDate: 3 }`), the `'toDate' in timestamp` probe succeeds and the call
`(timestamp as Timestamp).toDate()` throws a `TypeError` instead of
falling back to the current instant. -/
theorem convertTimestamp_throws_cex :
    convertTimestamp .objWithToDateNonFn 0 = .error .typeError := rfl

/-- Claim C6 as amended: for every input except an object whose `toDate`
property is present but not callable, `convertTimestamp` returns a date
and follows the documented policy — a store `Timestamp` yields its
to-date conversion, a native `Date` yields itself, an object with a
callable to-date capability yields that conversion, and every remaining
input (absent, null, malformed) yields the current instant. -/
theorem convertTimestamp_policy (v : TSValue) (now : Int)
    (h : v ≠ .objWithToDateNonFn) :
    convertTimestamp v now = .ok (match v with
      | .timestamp ms => ms
      | .date ms => ms
      | .objWithToDateFn ms => ms
      | _ => now) := by
  cases v <;> first
    | rfl
    | exact absurd rfl h

/-- Witness for C6's amended theorem at a concrete input. -/
theorem convertTimestamp_policy_witness :
    convertTimestamp (.timestamp 42) 0 = .ok 42 :=
  convertTimestamp_policy (.timestamp 42) 0 (by decide)

/-! ## C10 — calculateStats on the empty list -/

/-- Claim C10: on the empty task list `calculateStats` is well-defined: the
division in `completionRate` is guarded (`tasks.length > 0 ? ... : 0`), so
the rate is 0 rather than a division by zero, and every other aggregate is
0 as well. -/
theorem calculateStats_empty :
    calculateStats [] =
      { totalTasks := 0, completedTasks := 0, inProgressTasks := 0,
        blockedTasks := 0, completionRate := 0, totalHours := 0,
        velocity := 0 } := by
  simp [calculateStats]

/-! ## C7 — the task filter -/

/-- Claim C7: for every task list, status filter and raw free-text query,
`useTaskFilter`'s output equals the order-preserving filter keeping exactly
the tasks whose status matches (`all` matches everything) and — when the
debounced (lowercased, trimmed) query is non-empty — whose lowercased
title, module or some tag contains the query as a substring; and the
output is a subsequence of the input. -/
theorem filteredTasks_spec (tasks : List Task) (fs : StatusFilter)
    (rawQuery : String) :
    filteredTasks tasks fs (debouncedOf rawQuery) =
      tasks.filter (fun t =>
        (match fs with
          | .all => true
          | .only s => decide (t.status = s)) &&
        (decide (debouncedOf rawQuery = "") ||
          strIncludes (jsToLower t.title) (debouncedOf rawQuery) ||
          strIncludes (jsToLower t.module) (debouncedOf rawQuery) ||
          t.tags.any (fun tg => strIncludes (jsToLower tg) (debouncedOf rawQuery))))
    ∧ (filteredTasks tasks fs (debouncedOf rawQuery)).Sublist tasks := by
  constructor
  · unfold filteredTasks
    by_cases h : debouncedOf rawQuery = "" ∧ fs = .all
    · rw [if_pos h]
      symm
      apply List.filter_eq_self.mpr
      intro a _
      simp [h.1, h.2]
    · rw [if_neg h]
      apply List.filter_congr
      intro t _
      unfold taskMatchesFilter
      by_cases hq : debouncedOf rawQuery = ""
      · simp [hq]
      · simp [hq]
  · unfold filteredTasks
    by_cases h : debouncedOf rawQuery = "" ∧ fs = .all
    · rw [if_pos h]
    · rw [if_neg h]
      exact List.filter_sublist tasks

/-! ## C2 — stale-cache fallback in fetchTasks -/

/-- Claim C2: whenever the cache was populated by a previous successful
fetch, a failing live fetch returns the last good cached list (however
stale) rather than an empty list or an error; only with no cache does the
failure surface as the thrown connection error. -/
theorem fetchTasks_cache_fallback (cache : CacheState) (now : Int)
    (useCache : Bool) (l : List Task) (e : StoreErr)
    (hcache : cache.tasksCache = some l) :
    (fetchTasks cache now useCache none (.error e)).1 = .ok l ∧
    ∀ c2 : CacheState, c2.tasksCache = none →
      (fetchTasks c2 now useCache none (.error e)).1 =
        .error (.error fetchErrMsg) := by
  constructor
  · unfold fetchTasks
    split
    · simp [hcache, sliceTo]
    · simp [hcache]
  · intro c2 h2
    unfold fetchTasks
    rw [if_neg (by simp [h2])]
    simp [h2]

/-- Witness for C2 at a concrete stale cache: the cache was written at
instant 0, the read happens at instant 99999 (past the 30 s TTL), the
live fetch fails, and the stale cached list is still returned. -/
theorem fetchTasks_cache_fallback_witness :
    (fetchTasks sampleCache 99999 true none (.error .unavailable)).1 =
      .ok [sampleTask] :=
  (fetchTasks_cache_fallback sampleCache 99999 true [sampleTask]
    .unavailable rfl).1

/-! ## C1 — optimistic cache update of updateTaskStatus -/

/-- Claim C1: for every status value and every task id present in the
cached list (ids pairwise distinct), if the remote write of
`updateTaskStatus` succeeds then a cache read performed immediately
afterwards — a `fetchTasks` that hits the still-fresh cache, before any
subscription push — returns a list of the same length in which the entry
with that id carries the new status and every other entry is unchanged at
its position. -/
theorem updateTaskStatus_optimistic_cache
    (store : List StoreDoc) (cache : CacheState) (l : List Task)
    (taskId : String) (newStatus : TaskStatus) (o : StatusUpdateOptions)
    (nowTs nowDate now2 : Int) (remote2 : Except StoreErr (List StoreDoc))
    (hcache : cache.tasksCache = some l)
    (hnd : (l.map Task.id).Nodup)
    (hmem : taskId ∈ l.map Task.id)
    (hok : (updateTaskStatus store cache taskId newStatus o nowTs nowDate).1 = .ok ())
    (hfresh : now2 - cache.lastCacheTime < CACHE_DURATION) :
    ∃ r : List Task,
      (fetchTasks (updateTaskStatus store cache taskId newStatus o nowTs nowDate).2
        now2 true none remote2).1 = .ok r
      ∧ r.length = l.length
      ∧ (∀ (j : Nat) (t : Task), l[j]? = some t → t.id ≠ taskId → r[j]? = some t)
      ∧ (∀ (j : Nat) (t : Task), l[j]? = some t → t.id = taskId →
          ∃ t' : Task, r[j]? = some t' ∧ t'.status = newStatus) := by
  have hw : (if o.merge = true then updateDocResult store taskId else Except.ok ())
      = Except.ok () := by
    by_contra hne
    rcases h' : (if o.merge = true then updateDocResult store taskId else Except.ok ())
      with e | u
    · simp only [updateTaskStatus, h'] at hok
      exact absurd hok (by simp)
    · cases u
      exact hne h'
  simp only [updateTaskStatus, hw, hcache]
  refine ⟨patchFirst taskId
    (fun t => { t with toTaskData :=
      applyStatusUpdate newStatus o (.date nowDate) t.toTaskData }) l, ?_, ?_, ?_, ?_⟩
  · unfold fetchTasks
    rw [if_pos ⟨rfl, by simp, by simpa using hfresh⟩]
    simp [sliceTo]
  · exact patchFirst_length _ _ _
  · intro j t hj ht
    exact patchFirst_getElem_ne _ _ _ _ _ hj ht
  · intro j t hj ht
    refine ⟨_, patchFirst_getElem_id _ _ _ _ _ hnd hj ht, ?_⟩
    simp [applyStatusUpdate]

/-- Witness for C1 at a concrete input: one task in the store and in the
fresh cache, updated to `completed`; the immediate cache read shows the
new status. -/
theorem updateTaskStatus_optimistic_cache_witness :
    ∃ r : List Task,
      (fetchTasks (updateTaskStatus [sampleDoc] sampleCache "task_001"
        .completed {} 5 6).2 10 true none (.ok [])).1 = .ok r
      ∧ r.length = [sampleTask].length
      ∧ (∀ (j : Nat) (t : Task), [sampleTask][j]? = some t → t.id ≠ "task_001" →
          r[j]? = some t)
      ∧ (∀ (j : Nat) (t : Task), [sampleTask][j]? = some t → t.id = "task_001" →
          ∃ t' : Task, r[j]? = some t' ∧ t'.status = .completed) :=
  updateTaskStatus_optimistic_cache [sampleDoc] sampleCache [sampleTask]
    "task_001" .completed {} 5 6 10 (.ok []) rfl (by decide) (by decide)
    rfl (by decide)

/-! ## C5 — updateStatus on a missing id -/

/-- Claim C5, counterexample: on an id absent from the store the claim says
the failure is a not-found-class error re-thrown to the caller; in fact
`updateTaskStatus` catches the store's not-found error and throws a fresh
generic `new Error('Failed to update task status. Please try again.')`, so
what reaches the caller is not the store's not-found error. -/
theorem updateStatus_missing_id_cex :
    (updateTaskStatus [] sampleCache "task_404" .completed {} 0 0).1 =
      .error (.error updateFailMsg) ∧
    (Except.error (JsError.error updateFailMsg) : Except JsError Unit) ≠
      .error (.store .notFound) := by
  exact ⟨rfl, by simp⟩

/-- Claim C5 as amended: for every task id not present in the remote store,
`updateTaskStatus` (with the default merge mode, as the hook calls it)
fails — the underlying not-found store error is caught and replaced by the
generic operation-failed error, which the hook-level `updateStatus` wraps
once more — and the cache is left entirely unchanged: no optimistic patch
is applied. -/
theorem updateStatus_missing_id_generic_error
    (store : List StoreDoc) (cache : CacheState) (taskId : String)
    (newStatus : TaskStatus) (nowTs nowDate : Int)
    (habsent : ∀ d ∈ store, d.id ≠ taskId) :
    updateTaskStatus store cache taskId newStatus {} nowTs nowDate =
      (.error (.error updateFailMsg), cache) ∧
    ctrlUpdateStatus store cache taskId newStatus nowTs nowDate =
      (.error (.error ctrlUpdateFailMsg), cache) := by
  have hany : store.any (fun d => d.id = taskId) = false := by
    rw [List.any_eq_false]
    intro d hd
    simpa using habsent d hd
  have hres : updateDocResult store taskId = .error .notFound := by
    simp [updateDocResult, hany]
  have h1 : updateTaskStatus store cache taskId newStatus {} nowTs nowDate =
      (.error (.error updateFailMsg), cache) := by
    simp [updateTaskStatus, hres]
  refine ⟨h1, ?_⟩
  unfold ctrlUpdateStatus
  rw [h1]

/-- Witness for C5's amended theorem: an empty store has no `task_404`. -/
theorem updateStatus_missing_id_generic_error_witness :
    updateTaskStatus [] sampleCache "task_404" .completed {} 0 0 =
      (.error (.error updateFailMsg), sampleCache) :=
  (updateStatus_missing_id_generic_error [] sampleCache "task_404"
    .completed 0 0 (by simp)).1

/-! ## C4 — subscription errors -/

/-- Claim C4, counterexample: the claim says a subscription error sets the
controller's error flag; but `useRealtimeTasks` opens its subscription
with no `onError` callback, so after an error event the controller's
`error` is still `none`. -/
theorem subscription_error_no_flag_cex :
    (subStep {} 0 (.errEvent .unavailable)).ctrl.error = none := rfl

/-- Claim C4 as amended: a subscription error is delivered on the distinct
error channel, which the controller does not populate, so the whole system
state — the controller's error flag included — is unchanged; and the error
does not tear down the subscription: it stays active and a subsequent push
is still delivered, replacing the task list and the cache. -/
theorem subscription_error_keeps_subscription
    (s : SubSystem) (t t2 : Int) (e : StoreErr) (docs : List StoreDoc)
    (hactive : s.active = true) :
    subStep s t (.errEvent e) = s ∧
    (subStep s t (.errEvent e)).active = true ∧
    (subStep (subStep s t (.errEvent e)) t2 (.push docs)).ctrl.tasks =
      docs.map docToTask ∧
    (subStep (subStep s t (.errEvent e)) t2 (.push docs)).cache.tasksCache =
      some (docs.map docToTask) := by
  have herr : subStep s t (.errEvent e) = s := by
    simp [subStep, hactive]
  refine ⟨herr, ?_, ?_, ?_⟩
  · rw [herr]
    exact hactive
  · rw [herr]
    simp [subStep, hactive]
  · rw [herr]
    simp [subStep, hactive]

/-- Witness for C4's amended theorem at a concrete state and push. -/
theorem subscription_error_keeps_subscription_witness :
    (subStep (subStep ({} : SubSystem) 0 (.errEvent .unavailable)) 1
        (.push [sampleDoc])).ctrl.tasks = [sampleDoc].map docToTask :=
  (subscription_error_keeps_subscription {} 0 1 .unavailable [sampleDoc]
    rfl).2.2.1

/-! ## C3 — idempotence of the seed operation -/

/-- A whole-document batch write never shortens the collection. -/
theorem batchSetOne_length_le (store : List StoreDoc) (d : StoreDoc) :
    store.length ≤ (batchSetOne store d).length := by
  unfold batchSetOne
  split <;> simp

/-- A batch write leaves at least one document. -/
theorem batchSetOne_length_pos (store : List StoreDoc) (d : StoreDoc) :
    0 < (batchSetOne store d).length := by
  unfold batchSetOne
  split
  · rename_i h
    cases store with
    | nil => simp at h
    | cons x xs => simp
  · simp

/-- A committed batch never shortens the collection. -/
theorem batchSet_length_le (store : List StoreDoc) (docs : List StoreDoc) :
    store.length ≤ (batchSet store docs).length := by
  induction docs generalizing store with
  | nil => simp [batchSet]
  | cons d ds ih =>
      have hstep : batchSet store (d :: ds) = batchSet (batchSetOne store d) ds := by
        simp [batchSet]
      rw [hstep]
      exact le_trans (batchSetOne_length_le store d) (ih (batchSetOne store d))

/-- Committing a non-empty batch leaves a non-empty collection. -/
theorem batchSet_ne_nil (store : List StoreDoc) (docs : List StoreDoc)
    (h : docs ≠ []) : batchSet store docs ≠ [] := by
  cases docs with
  | nil => exact absurd rfl h
  | cons d ds =>
      have hstep : batchSet store (d :: ds) = batchSet (batchSetOne store d) ds := by
        simp [batchSet]
      rw [hstep]
      have hpos : 0 < (batchSet (batchSetOne store d) ds).length :=
        lt_of_lt_of_le (batchSetOne_length_pos store d)
          (batchSet_length_le (batchSetOne store d) ds)
      exact List.ne_nil_of_length_pos hpos

/-- The fixed seed set is non-empty. -/
theorem seedDocs_ne_nil (now : Int) : seedDocs now ≠ [] := by
  unfold seedDocs
  rw [Ne, List.mapIdx_eq_nil_iff]
  simp [initialTasks]

/-- On a non-empty collection with a working probe, the seed operation
without `force` performs no write at all. -/
theorem initializeTasks_noop_of_ne_nil (store : List StoreDoc)
    (cache : CacheState) (now : Int) (h : store ≠ []) :
    initializeTasks store cache false false false now = (.ok (), store, cache) := by
  unfold initializeTasks checkTasksExist probeResult
  cases store with
  | nil => exact absurd rfl h
  | cons d ds => simp

/-- After a successful seed call the collection is non-empty. -/
theorem initializeTasks_store_ne_nil (store : List StoreDoc)
    (cache : CacheState) (now : Int) :
    (initializeTasks store cache false false false now).2.1 ≠ [] := by
  cases store with
  | cons d ds =>
      rw [initializeTasks_noop_of_ne_nil (d :: ds) cache now (by simp)]
      simp
  | nil =>
      have hne : batchSet [] (seedDocs now) ≠ [] :=
        batchSet_ne_nil [] (seedDocs now) (seedDocs_ne_nil now)
      have hseed : (initializeTasks [] cache false false false now).2.1 =
          batchSet [] (seedDocs now) := by
        unfold initializeTasks checkTasksExist probeResult
        simp
      rw [hseed]
      exact hne

/-- Claim C3: calling the seed operation twice in a row with `force=false`
is idempotent — the records existing after the first call make the second
call's existence check succeed, so the second call performs no write and
returns with every record and the cache exactly as the first call left
them. -/
theorem initializeTasks_second_call_noop (store : List StoreDoc)
    (cache : CacheState) (now1 now2 : Int) :
    initializeTasks (initializeTasks store cache false false false now1).2.1
      (initializeTasks store cache false false false now1).2.2
      false false false now2 =
    (.ok (), (initializeTasks store cache false false false now1).2.1,
      (initializeTasks store cache false false false now1).2.2) :=
  initializeTasks_noop_of_ne_nil _ _ now2
    (initializeTasks_store_ne_nil store cache now1)

/-! ## C9 — totality of checkTasksExist -/

/-- Claim C9: `checkTasksExist` is total at its interface: a failing probe
is absorbed and reported as `false` — indistinguishable from probing an
empty collection — so a transient probe failure makes a subsequent
`initializeTasks` (without `force`) re-run the whole seed batch even over a
non-empty collection. -/
theorem checkTasksExist_total_absorbs (store : List StoreDoc)
    (cache : CacheState) (e : StoreErr) (now : Int) :
    checkTasksExist (.error e) = false ∧
    checkTasksExist (.error e) = checkTasksExist (probeResult [] false) ∧
    (initializeTasks store cache false true false now).2.1 =
      batchSet store (seedDocs now) := by
  refine ⟨rfl, rfl, ?_⟩
  unfold initializeTasks checkTasksExist probeResult
  simp

/-! ## C8 — login lockout -/

/-- Claim C8: three consecutive failed `login` calls with wrong credentials
lock the gate with the attempt counter at 3; a fourth call — even with the
correct credential — fails immediately with the locked-state message,
leaves the counter at 3 and does not authenticate; and a successful login
before lockout resets the attempt counter to zero. -/
theorem login_lockout (w1 w2 w3 : String) (n1 n2 n3 n4 : Int)
    (h1 : w1 ≠ TESTER_PASSWORD) (h2 : w2 ≠ TESTER_PASSWORD)
    (h3 : w3 ≠ TESTER_PASSWORD) :
    (afterThreeLogins w1 w2 w3 n1 n2 n3).isLocked = true ∧
    (afterThreeLogins w1 w2 w3 n1 n2 n3).attempts = 3 ∧
    (login (afterThreeLogins w1 w2 w3 n1 n2 n3) n4 TESTER_PASSWORD).1 = false ∧
    (login (afterThreeLogins w1 w2 w3 n1 n2 n3) n4 TESTER_PASSWORD).2.attempts = 3 ∧
    (login (afterThreeLogins w1 w2 w3 n1 n2 n3) n4 TESTER_PASSWORD).2.isAuthenticated
      = false ∧
    (login (afterThreeLogins w1 w2 w3 n1 n2 n3) n4 TESTER_PASSWORD).2.error
      = lockedMsg ∧
    (∀ (s : AuthState) (n : Int), s.isLocked = false →
      (login s n TESTER_PASSWORD).1 = true ∧
      (login s n TESTER_PASSWORD).2.attempts = 0) := by
  have hs3 : afterThreeLogins w1 w2 w3 n1 n2 n3 =
      { error := lockoutMsg, isLocked := true,
        lockoutEndStored := some (n3 + LOCKOUT_DURATION), attempts := 3 } := by
    simp [afterThreeLogins, login, h1, h2, h3, MAX_ATTEMPTS]
  refine ⟨by rw [hs3], by rw [hs3], ?_, ?_, ?_, ?_, ?_⟩
  · rw [hs3]
    simp [login]
  · rw [hs3]
    simp [login]
  · rw [hs3]
    simp [login]
  · rw [hs3]
    simp [login]
  · intro s n hs
    constructor <;> simp [login, hs]

/-- Witness for C8 with the concrete wrong credential `"x"`: the fourth
call with the correct credential fails and the counter stays at 3. -/
theorem login_lockout_witness :
    (login (afterThreeLogins "x" "x" "x" 0 0 0) 0 TESTER_PASSWORD).1 = false ∧
    (login (afterThreeLogins "x" "x" "x" 0 0 0) 0 TESTER_PASSWORD).2.attempts = 3 :=
  ⟨(login_lockout "x" "x" "x" 0 0 0 0 (by decide) (by decide) (by decide)).2.2.1,
   (login_lockout "x" "x" "x" 0 0 0 0 (by decide) (by decide) (by decide)).2.2.2.1⟩

end WeCinema
